import Mathlib

/-!
A shallow embedding of the CelticCalendar repository's computational core
(src/calendar.c and src/astronomy.c), together with theorems settling the
specification's claims about it.

Modelling conventions:
* C `long` and `int` values are modelled as `ℤ`; the claims quantify over
  Julian Day Numbers in their mathematical range, so overflow is out of scope.
* C `double` arithmetic in the purely rational computations (Julian-day
  conversion, synodic-phase bookkeeping, the fixed-cycle calendar) is
  modelled exactly over `ℚ`.
* The trigonometric solar computations are modelled over `ℝ` with `Real.sin`
  and friends.  The source's `#define PI 3.14159265358979323846` is a decimal
  approximation of π and is modelled as `Real.pi`.
* A C cast `(long)x` or `(int)x` of a floating value truncates toward zero:
  `ctrunc` (on `ℚ`) / `ctruncR` (on `ℝ`).  C `fmod` is `cfmod` / `cfmodR`.
  C integer `/` and `%` truncate toward zero: `Int.tdiv` / `Int.tmod`.
-/

/-- C cast of a `double` to an integer type: truncation toward zero (`ℚ` model).
Written with `Rat.floor` (definitionally `⌊·⌋`) so that it evaluates by `decide`. -/
def ctrunc (q : ℚ) : ℤ := if q < 0 then -Rat.floor (-q) else Rat.floor q

/-- C `fmod(x, y)`: `x - y * trunc (x / y)` (`ℚ` model). -/
def cfmod (x y : ℚ) : ℚ := x - y * (ctrunc (x / y) : ℚ)

/-- C cast of a `double` to an integer type: truncation toward zero (`ℝ` model). -/
noncomputable def ctruncR (x : ℝ) : ℤ := if x < 0 then -⌊-x⌋ else ⌊x⌋

/-- C `fmod(x, y)` (`ℝ` model). -/
noncomputable def cfmodR (x y : ℝ) : ℝ := x - y * (ctruncR (x / y) : ℝ)

/-- The source's `#define PI 3.14159265358979323846` (astronomy.c line 6), a
decimal approximation of π, modelled as the real π. -/
noncomputable def PI : ℝ := Real.pi

/-! ## calendar.c: fixed 5-year Coligny-cycle calendar -/

/-- `#define ANCHOR_JD 2460981L` (calendar.c line 19): Nov 1, 2025. -/
def ANCHOR_JD : ℤ := 2460981

/-- `#define ANCHOR_YEAR 5127` (calendar.c line 20). -/
def ANCHOR_YEAR : ℤ := 5127

/-- `#define ANCHOR_CYCLE_POS 0` (calendar.c line 21). -/
def ANCHOR_CYCLE_POS : ℤ := 0

/-- `#define CYCLE_YEARS 5` (calendar.c line 23). -/
def CYCLE_YEARS : ℤ := 5

/-- `#define CYCLE_DAYS 1830` (calendar.c line 24). -/
def CYCLE_DAYS : ℤ := 1830

/-- `static const int year_days_in_cycle[5] = {384, 354, 384, 354, 354}`
(calendar.c line 36), as a total function on the index. -/
def year_days_in_cycle (i : ℤ) : ℤ :=
  if i = 0 then 384 else if i = 1 then 354 else if i = 2 then 384
  else if i = 3 then 354 else 354

/-- `static const int cycle_year_start[5] = {0, 384, 738, 1122, 1476}`
(calendar.c line 39), as a total function on the index. -/
def cycle_year_start (i : ℤ) : ℤ :=
  if i = 0 then 0 else if i = 1 then 384 else if i = 2 then 738
  else if i = 3 then 1122 else 1476

/-- `jd_from_ymd` (calendar.c lines 41-49).  The two `(long)` casts act on
exactly representable doubles, so the `ℚ` model is exact. -/
def jd_from_ymd (Y M D : ℤ) : ℤ :=
  let Y1 : ℤ := if M ≤ 2 then Y - 1 else Y
  let M1 : ℤ := if M ≤ 2 then M + 12 else M
  let A : ℤ := Y1.tdiv 100
  let B : ℤ := 2 - A + A.tdiv 4
  ctrunc (365.25 * ((Y1 : ℚ) + 4716)) + ctrunc (30.6001 * ((M1 : ℚ) + 1)) + D + B - 1524

/-- `celtic_year_from_jd` (calendar.c lines 62-85): `full_cycles`/`remaining_days`
with the negative fix-up, then the first-match selection loop over the cycle
(initial value 0 doubles as the fallback). -/
def celtic_year_from_jd (jd : ℤ) : ℤ :=
  let delta : ℤ := jd - ANCHOR_JD
  let fc0 : ℤ := delta.tdiv CYCLE_DAYS
  let r0 : ℤ := delta.tmod CYCLE_DAYS
  let fc : ℤ := if r0 < 0 then fc0 - 1 else fc0
  let r : ℤ := if r0 < 0 then r0 + CYCLE_DAYS else r0
  let yic : ℤ :=
    if r < cycle_year_start 0 + year_days_in_cycle 0 then 0
    else if r < cycle_year_start 1 + year_days_in_cycle 1 then 1
    else if r < cycle_year_start 2 + year_days_in_cycle 2 then 2
    else if r < cycle_year_start 3 + year_days_in_cycle 3 then 3
    else if r < cycle_year_start 4 + year_days_in_cycle 4 then 4
    else 0
  ANCHOR_YEAR + fc * CYCLE_YEARS + yic

/-- `day_of_year` (calendar.c lines 90-110): same cycle decomposition, returning
`remaining - cycle_year_start[i] + 1` at the first matching year, with the
line-109 fallback for a completed loop. -/
def day_of_year (jd : ℤ) : ℤ :=
  let delta : ℤ := jd - ANCHOR_JD
  let r0 : ℤ := delta.tmod CYCLE_DAYS
  let r : ℤ := if r0 < 0 then r0 + CYCLE_DAYS else r0
  if r < cycle_year_start 0 + year_days_in_cycle 0 then r - cycle_year_start 0 + 1
  else if r < cycle_year_start 1 + year_days_in_cycle 1 then r - cycle_year_start 1 + 1
  else if r < cycle_year_start 2 + year_days_in_cycle 2 then r - cycle_year_start 2 + 1
  else if r < cycle_year_start 3 + year_days_in_cycle 3 then r - cycle_year_start 3 + 1
  else if r < cycle_year_start 4 + year_days_in_cycle 4 then r - cycle_year_start 4 + 1
  else r - cycle_year_start 4 + 1

/-- `year_in_cycle_from_jd` (calendar.c lines 126-141): note this helper applies
no fix-up to `full_cycles` and falls back to 4 (line 140). -/
def year_in_cycle_from_jd (jd : ℤ) : ℤ :=
  let delta : ℤ := jd - ANCHOR_JD
  let r0 : ℤ := delta.tmod CYCLE_DAYS
  let r : ℤ := if r0 < 0 then r0 + CYCLE_DAYS else r0
  if r < cycle_year_start 0 + year_days_in_cycle 0 then 0
  else if r < cycle_year_start 1 + year_days_in_cycle 1 then 1
  else if r < cycle_year_start 2 + year_days_in_cycle 2 then 2
  else if r < cycle_year_start 3 + year_days_in_cycle 3 then 3
  else if r < cycle_year_start 4 + year_days_in_cycle 4 then 4
  else 4

/-- `current_year_length` (calendar.c lines 146-150). -/
def current_year_length (jd : ℤ) : ℤ :=
  year_days_in_cycle (year_in_cycle_from_jd jd)

/-- The `for (i = 0; i < rem; i++) jd += year_days_in_cycle[(ANCHOR_CYCLE_POS + i) % CYCLE_YEARS]`
loop shared by `jd_start_of_celtic_month` and `jd_start_of_celtic_year`
(calendar.c lines 212-214 and 249-251), as a recursion on the iteration count. -/
def cycle_prefix_days : ℕ → ℤ
  | 0 => 0
  | n + 1 => cycle_prefix_days n + year_days_in_cycle ((ANCHOR_CYCLE_POS + (n : ℤ)).tmod CYCLE_YEARS)

/-- `jd_start_of_celtic_year` (calendar.c lines 236-255). -/
def jd_start_of_celtic_year (year : ℤ) : ℤ :=
  let delta_years : ℤ := year - ANCHOR_YEAR
  let fc0 : ℤ := delta_years.tdiv CYCLE_YEARS
  let rem0 : ℤ := delta_years.tmod CYCLE_YEARS
  let fc : ℤ := if rem0 < 0 then fc0 - 1 else fc0
  let rem : ℤ := if rem0 < 0 then rem0 + CYCLE_YEARS else rem0
  ANCHOR_JD + fc * CYCLE_DAYS + cycle_prefix_days rem.toNat

/-! ## astronomy.c: synodic-cycle lunar bookkeeping (exact `ℚ` model) -/

/-- `moon_phase` (astronomy.c lines 9-19): quarter the synodic fraction with
buckets at 0.125/0.375/0.625/0.875; 0=new, 1=first quarter, 2=full, 3=last. -/
def moon_phase (jd : ℤ) : ℤ :=
  let phase0 : ℚ := cfmod (((jd : ℚ) - 2451550.1) / 29.53058867) 1
  let phase : ℚ := if phase0 < 0 then phase0 + 1 else phase0
  if phase < 0.125 then 0
  else if phase < 0.375 then 1
  else if phase < 0.625 then 2
  else if phase < 0.875 then 3
  else 0

/-- `find_full_moon_before` (astronomy.c lines 88-107): closed-form offset back
to the most recent full moon (phase 0.5) at or before `jd`. -/
def find_full_moon_before (jd : ℤ) : ℤ :=
  let synodic : ℚ := 29.53058867
  let new_moon_ref : ℚ := 2451550.1
  let phase0 : ℚ := cfmod (((jd : ℚ) - new_moon_ref) / synodic) 1
  let phase : ℚ := if phase0 < 0 then phase0 + 1 else phase0
  let days_since_full : ℚ :=
    if 0.5 ≤ phase then (phase - 0.5) * synodic else (phase + 0.5) * synodic
  jd - ctrunc days_since_full

/-- `lunar_day_of_month` (astronomy.c lines 113-117). -/
def lunar_day_of_month (jd : ℤ) : ℤ :=
  jd - find_full_moon_before jd + 1

/-- `lunar_month_length` (astronomy.c lines 123-132): gap to the next full moon
(searching +30 days ahead, retrying +35 if the search did not advance),
clamped to 29 unless the gap is at least 30. -/
def lunar_month_length (jd : ℤ) : ℤ :=
  let this_full : ℤ := find_full_moon_before jd
  let next_full0 : ℤ := find_full_moon_before (jd + 30)
  let next_full : ℤ := if next_full0 ≤ this_full then find_full_moon_before (jd + 35) else next_full0
  let length : ℤ := next_full - this_full
  if 30 ≤ length then 30 else 29

/-- The inline Gregorian year/month extraction from a JDN used inside
`lunar_celtic_month_index` (astronomy.c lines 171-180; the same block is
repeated at lines 610-618).  Returns `(greg_year, greg_month)`. -/
def greg_from_jd (jd : ℤ) : ℤ × ℤ :=
  let z : ℤ := jd + 1
  let alpha : ℤ := ctrunc (((z : ℚ) - 1867216.25) / 36524.25)
  let a : ℤ := z + 1 + alpha - alpha.tdiv 4
  let b : ℤ := a + 1524
  let c : ℤ := ctrunc (((b : ℚ) - 122.1) / 365.25)
  let dd : ℤ := ctrunc (365.25 * (c : ℚ))
  let e : ℤ := ctrunc (((b : ℚ) - (dd : ℚ)) / 30.6001)
  let greg_month : ℤ := if e < 14 then e - 1 else e - 13
  let greg_year : ℤ := if 2 < greg_month then c - 4716 else c - 4715
  (greg_year, greg_month)

/-! ## astronomy.c: solar position and sunset (`ℝ` model) -/

/-- `sun_longitude` (astronomy.c lines 71-82): apparent ecliptic longitude of
the Sun in degrees, each term normalized into `[0, 360)`. -/
noncomputable def sun_longitude (jd : ℤ) : ℝ :=
  let d : ℝ := (jd : ℝ) - 2451545.0
  let L0 : ℝ := cfmodR (280.460 + 0.9856474 * d) 360
  let L : ℝ := if L0 < 0 then L0 + 360 else L0
  let g0 : ℝ := cfmodR (357.528 + 0.9856003 * d) 360
  let g : ℝ := if g0 < 0 then g0 + 360 else g0
  let lambda0 : ℝ := L + 1.915 * Real.sin (g * PI / 180) + 0.020 * Real.sin (2 * g * PI / 180)
  let lambda1 : ℝ := cfmodR lambda0 360
  if lambda1 < 0 then lambda1 + 360 else lambda1

/-- `days_to_solar_longitude` (astronomy.c lines 452-462): shortest-path angular
difference to the target divided by the mean daily motion 0.9856, truncated. -/
noncomputable def days_to_solar_longitude (jd : ℤ) (target_longitude : ℝ) : ℤ :=
  let sun_long : ℝ := sun_longitude jd
  let diff0 : ℝ := target_longitude - sun_long
  let diff1 : ℝ := if 180 < diff0 then diff0 - 360 else diff0
  let diff : ℝ := if diff1 < -180 then diff1 + 360 else diff1
  ctruncR (diff / 0.9856)

/-- `days_to_true_samhain` (astronomy.c lines 467-470); `SAMHAIN_LONGITUDE = 225.0`. -/
noncomputable def days_to_true_samhain (jd : ℤ) : ℤ := days_to_solar_longitude jd 225.0

/-- `days_to_true_imbolc` (astronomy.c lines 475-478); `IMBOLC_LONGITUDE = 315.0`. -/
noncomputable def days_to_true_imbolc (jd : ℤ) : ℤ := days_to_solar_longitude jd 315.0

/-- `days_to_true_beltane` (astronomy.c lines 483-486); `BELTANE_LONGITUDE = 45.0`. -/
noncomputable def days_to_true_beltane (jd : ℤ) : ℤ := days_to_solar_longitude jd 45.0

/-- `days_to_true_lughnasadh` (astronomy.c lines 491-494); `LUGHNASADH_LONGITUDE = 135.0`. -/
noncomputable def days_to_true_lughnasadh (jd : ℤ) : ℤ := days_to_solar_longitude jd 135.0

/-- `days_to_yule` (astronomy.c lines 640-643); `WINTER_SOLSTICE = 270.0`. -/
noncomputable def days_to_yule (jd : ℤ) : ℤ := days_to_solar_longitude jd 270.0

/-- `days_to_ostara` (astronomy.c lines 648-651); `VERNAL_EQUINOX = 0.0`. -/
noncomputable def days_to_ostara (jd : ℤ) : ℤ := days_to_solar_longitude jd 0.0

/-- `days_to_litha` (astronomy.c lines 656-659); `SUMMER_SOLSTICE = 90.0`. -/
noncomputable def days_to_litha (jd : ℤ) : ℤ := days_to_solar_longitude jd 90.0

/-- `days_to_mabon` (astronomy.c lines 664-667); `AUTUMN_EQUINOX = 180.0`. -/
noncomputable def days_to_mabon (jd : ℤ) : ℤ := days_to_solar_longitude jd 180.0

/-- Body of the `if (events[i] < 0) events[i] += 365` normalization loop of
`nearest_eightfold_event` (astronomy.c lines 687-689). -/
noncomputable def eightfold_adjust (e : ℤ) : ℤ := if e < 0 then e + 365 else e

/-- Body of the minimum-selection loop of `nearest_eightfold_event`
(astronomy.c lines 695-700): one iteration updating `(nearest, min_days)`. -/
def eightfold_min_step (p : ℤ × ℤ) (i f : ℤ) : ℤ × ℤ :=
  if f < p.2 then (i, f) else p

/-- `nearest_eightfold_event` (astronomy.c lines 674-704): the eight signed day
offsets, negatives shifted by +365, then the strict-minimum selection loop.
Returns `(nearest, days_to_event)` (the C out-parameter is the second slot). -/
noncomputable def nearest_eightfold_event (jd : ℤ) : ℤ × ℤ :=
  let f0 : ℤ := eightfold_adjust (days_to_yule jd)
  let f1 : ℤ := eightfold_adjust (days_to_true_imbolc jd)
  let f2 : ℤ := eightfold_adjust (days_to_ostara jd)
  let f3 : ℤ := eightfold_adjust (days_to_true_beltane jd)
  let f4 : ℤ := eightfold_adjust (days_to_litha jd)
  let f5 : ℤ := eightfold_adjust (days_to_true_lughnasadh jd)
  let f6 : ℤ := eightfold_adjust (days_to_mabon jd)
  let f7 : ℤ := eightfold_adjust (days_to_true_samhain jd)
  eightfold_min_step (eightfold_min_step (eightfold_min_step (eightfold_min_step
    (eightfold_min_step (eightfold_min_step (eightfold_min_step (0, f0) 1 f1)
      2 f2) 3 f3) 4 f4) 5 f5) 6 f6) 7 f7

/-- `calculate_sunset` (astronomy.c lines 225-269): solar declination and the
sunset hour angle, with the two polar clamp branches exactly as in the source
(`cos_H > 1.0` returns 12.0; `cos_H < -1.0` returns 24.0). -/
noncomputable def calculate_sunset (jd : ℤ) (latitude : ℝ) : ℝ :=
  let d : ℝ := (jd : ℝ) - 2451545.0
  let g0 : ℝ := cfmodR (357.529 + 0.98560028 * d) 360
  let g : ℝ := if g0 < 0 then g0 + 360 else g0
  let g_rad : ℝ := g * PI / 180
  let L0 : ℝ := cfmodR (280.459 + 0.98564736 * d) 360
  let L : ℝ := if L0 < 0 then L0 + 360 else L0
  let lambda0 : ℝ := L + 1.915 * Real.sin g_rad + 0.020 * Real.sin (2 * g_rad)
  let lambda1 : ℝ := cfmodR lambda0 360
  let lambda : ℝ := if lambda1 < 0 then lambda1 + 360 else lambda1
  let lambda_rad : ℝ := lambda * PI / 180
  let epsilon : ℝ := 23.439 - 0.0000004 * d
  let epsilon_rad : ℝ := epsilon * PI / 180
  let delta : ℝ := Real.arcsin (Real.sin epsilon_rad * Real.sin lambda_rad)
  let lat_rad : ℝ := latitude * PI / 180
  let cos_H : ℝ := (Real.sin (-0.833 * PI / 180) - Real.sin lat_rad * Real.sin delta)
                   / (Real.cos lat_rad * Real.cos delta)
  if 1 < cos_H then 12
  else if cos_H < -1 then 24
  else
    let H : ℝ := Real.arccos cos_H * 180 / PI / 15
    12 + H

/-! ## astronomy.c: lunisolar Celtic month index -/

/-- The `for (d = 0; d < 15; d++)` scan of `find_samonios_start` (astronomy.c
lines 144-150): first day from Nov 1 whose Sun longitude lies in
`[224.5, 225.5]`, defaulting to Nov 1 itself when the scan completes. -/
noncomputable def samhain_scan (jd_nov1 : ℤ) (d : ℕ) : ℤ :=
  if 15 ≤ d then jd_nov1
  else if 224.5 ≤ sun_longitude (jd_nov1 + (d : ℤ)) ∧ sun_longitude (jd_nov1 + (d : ℤ)) ≤ 225.5
    then jd_nov1 + (d : ℤ)
  else samhain_scan jd_nov1 (d + 1)
termination_by 15 - d

/-- `find_samonios_start` (astronomy.c lines 138-157): full moon at or before
three days past the scanned Samhain date. -/
noncomputable def find_samonios_start (greg_year : ℤ) : ℤ :=
  let jd_nov1 : ℤ := jd_from_ymd greg_year 11 1
  let jd_samhain : ℤ := samhain_scan jd_nov1 0
  find_full_moon_before (jd_samhain + 3)

/-- The lunation-counting `while` loop of `lunar_celtic_month_index`
(astronomy.c lines 195-201), with an explicit fuel argument; the fuel is never
exhausted for the initial count 0 because the `month_count > 13` break fires
within 14 iterations. -/
noncomputable def lunation_loop (jd_current_month : ℤ) : ℤ → ℤ → ℕ → ℤ
  | _, month_count, 0 => month_count
  | jd_check, month_count, fuel + 1 =>
    if jd_check < jd_current_month then
      let jd_check2 : ℤ := find_full_moon_before (jd_check + 32)
      let mc : ℤ := month_count + 1
      if 13 < mc then mc else lunation_loop jd_current_month jd_check2 mc fuel
    else month_count

/-- The lunation count computed by `lunar_celtic_month_index` (astronomy.c
lines 163-201): Gregorian-year extraction, Samonios-start selection (previous
year when `jd` precedes this year's start), then the counting loop. -/
noncomputable def lunation_count (jd : ℤ) : ℤ :=
  let greg_year : ℤ := (greg_from_jd jd).1
  let greg_month : ℤ := (greg_from_jd jd).2
  let samhain_year : ℤ := if 11 ≤ greg_month then greg_year else greg_year - 1
  let jd_samonios : ℤ := find_samonios_start samhain_year
  let jd_samonios2 : ℤ :=
    if jd < jd_samonios then find_samonios_start (samhain_year - 1) else jd_samonios
  let jd_current_month : ℤ := find_full_moon_before jd
  lunation_loop jd_current_month jd_samonios2 0 14

/-- `lunar_celtic_month_index` (astronomy.c lines 163-205): the final ternary
`(month_count > 11) ? -1 : month_count` applied to the lunation count. -/
noncomputable def lunar_celtic_month_index (jd : ℤ) : ℤ :=
  if 11 < lunation_count jd then -1 else lunation_count jd

/-! ## Shared helper lemmas -/

/-- Bridge from `Rat.floor` to the `Int.floor` notation. -/
theorem ratfloor_eq (q : ℚ) : Rat.floor q = ⌊q⌋ := by
  rw [Rat.floor_def', Rat.floor_def]

/-- Truncation toward zero agrees with the floor on nonnegative arguments. -/
theorem ctrunc_of_nonneg {q : ℚ} (h : 0 ≤ q) : ctrunc q = ⌊q⌋ := by
  unfold ctrunc
  rw [if_neg (not_lt.mpr h), ratfloor_eq]

/-- Range of the C `%` remainder for a positive divisor. -/
theorem tmod_range (a : ℤ) {b : ℤ} (hb : 0 < b) : -b < a.tmod b ∧ a.tmod b < b := by
  rcases le_or_lt 0 a with h | h
  · have h1 := Int.tmod_nonneg b h
    have h2 := Int.tmod_lt_of_pos a hb
    omega
  · have h0 : 0 ≤ -a := by omega
    have h1 := Int.tmod_nonneg b h0
    have h2 := Int.tmod_lt_of_pos (-a) hb
    have h3 := Int.tdiv_add_tmod a b
    have h4 := Int.tdiv_add_tmod (-a) b
    have h5 : b * ((-a).tdiv b) = -(b * (a.tdiv b)) := by rw [Int.neg_tdiv]; ring
    omega

/-- C truncating division expressed through Euclidean division, for `omega`. -/
theorem tdiv_eq_ite (a : ℤ) {b : ℤ} (hb : 0 ≤ b) :
    a.tdiv b = if 0 ≤ a then a / b else -(-a / b) := by
  rcases le_or_lt 0 a with h | h
  · rw [if_pos h, Int.tdiv_eq_ediv h hb]
  · rw [if_neg (not_le.mpr h)]
    have h2 : a.tdiv b = -((-a).tdiv b) := by rw [Int.neg_tdiv, neg_neg]
    rw [h2, Int.tdiv_eq_ediv (by omega) hb]

/-- Floor of an exact integer quotient over `ℚ` is Euclidean division. -/
theorem floor_intCast_div_intCast (n : ℤ) {b : ℤ} (hb : 0 < b) :
    ⌊(n : ℚ) / (b : ℚ)⌋ = n / b := by
  have hcast : ((b.toNat : ℕ) : ℚ) = (b : ℚ) := by
    exact_mod_cast congrArg (fun z : ℤ => (z : ℚ)) (Int.toNat_of_nonneg (le_of_lt hb))
  have h := Rat.floor_intCast_div_natCast n b.toNat
  rw [hcast] at h
  rw [h, Int.toNat_of_nonneg (le_of_lt hb)]

/-- The C cast of an exact rational quotient of integers is `Int.tdiv`. -/
theorem ctrunc_intCast_div (a : ℤ) {b : ℤ} (hb : 0 < b) :
    ctrunc ((a : ℚ) / (b : ℚ)) = a.tdiv b := by
  have hbQ : (0 : ℚ) < (b : ℚ) := by exact_mod_cast hb
  unfold ctrunc
  rcases le_or_lt 0 a with h | h
  · have hq : ¬((a : ℚ) / (b : ℚ) < 0) := by
      push_neg
      positivity
    rw [if_neg hq, ratfloor_eq, floor_intCast_div_intCast _ hb,
      Int.tdiv_eq_ediv h (le_of_lt hb)]
  · have haQ : ((a : ℚ)) < 0 := by exact_mod_cast h
    have hq : (a : ℚ) / (b : ℚ) < 0 := div_neg_of_neg_of_pos haQ hbQ
    rw [if_pos hq, ratfloor_eq]
    have hneg : -((a : ℚ) / (b : ℚ)) = ((-a : ℤ) : ℚ) / ((b : ℤ) : ℚ) := by
      push_cast
      ring
    rw [hneg, floor_intCast_div_intCast _ hb]
    have h2 : a.tdiv b = -((-a).tdiv b) := by rw [Int.neg_tdiv, neg_neg]
    rw [h2, Int.tdiv_eq_ediv (by omega) (le_of_lt hb)]

/-- `365.25 * x` truncated, as an integer operation. -/
theorem ctrunc_36525 (x : ℤ) :
    ctrunc (365.25 * (x : ℚ)) = (1461 * x).tdiv 4 := by
  have h : (365.25 : ℚ) * (x : ℚ) = ((1461 * x : ℤ) : ℚ) / ((4 : ℤ) : ℚ) := by
    push_cast
    ring_nf
  rw [h, ctrunc_intCast_div _ (by norm_num)]

/-- `30.6001 * x` truncated, as an integer operation. -/
theorem ctrunc_306001 (x : ℤ) :
    ctrunc (30.6001 * (x : ℚ)) = (306001 * x).tdiv 10000 := by
  have h : (30.6001 : ℚ) * (x : ℚ) = ((306001 * x : ℤ) : ℚ) / ((10000 : ℤ) : ℚ) := by
    push_cast
    ring_nf
  rw [h, ctrunc_intCast_div _ (by norm_num)]

/-- The Gregorian-to-JDN formula in pure integer arithmetic. -/
theorem jd_from_ymd_eq (Y M D : ℤ) :
    jd_from_ymd Y M D =
      (if M ≤ 2 then
        (1461 * (Y - 1 + 4716)).tdiv 4 + (306001 * (M + 12 + 1)).tdiv 10000
          + D + (2 - (Y - 1).tdiv 100 + ((Y - 1).tdiv 100).tdiv 4) - 1524
      else
        (1461 * (Y + 4716)).tdiv 4 + (306001 * (M + 1)).tdiv 10000
          + D + (2 - Y.tdiv 100 + (Y.tdiv 100).tdiv 4) - 1524) := by
  unfold jd_from_ymd
  rcases le_or_lt M 2 with h | h
  · simp only [if_pos h]
    have e1 : ((Y - 1 : ℤ) : ℚ) + 4716 = (((Y - 1 + 4716 : ℤ)) : ℚ) := by push_cast; ring
    have e2 : ((M + 12 : ℤ) : ℚ) + 1 = (((M + 12 + 1 : ℤ)) : ℚ) := by push_cast; ring
    rw [e1, e2, ctrunc_36525, ctrunc_306001]
  · simp only [if_neg (not_le.mpr h)]
    have e1 : ((Y : ℤ) : ℚ) + 4716 = (((Y + 4716 : ℤ)) : ℚ) := by push_cast; ring
    have e2 : ((M : ℤ) : ℚ) + 1 = (((M + 1 : ℤ)) : ℚ) := by push_cast; ring
    rw [e1, e2, ctrunc_36525, ctrunc_306001]

/-- Negating the dividend negates the C remainder. -/
theorem tmod_neg_dividend (a b : ℤ) : (-a).tmod b = -(a.tmod b) := by
  have h3 := Int.tdiv_add_tmod a b
  have h4 := Int.tdiv_add_tmod (-a) b
  have h5 : b * ((-a).tdiv b) = -(b * (a.tdiv b)) := by rw [Int.neg_tdiv]; ring
  omega

/-- Full characterization of C division/remainder for a positive divisor. -/
theorem tmod_spec (a : ℤ) {b : ℤ} (hb : 0 < b) :
    b * a.tdiv b + a.tmod b = a ∧ -b < a.tmod b ∧ a.tmod b < b ∧
      (0 ≤ a → 0 ≤ a.tmod b) ∧ (a ≤ 0 → a.tmod b ≤ 0) := by
  refine ⟨Int.tdiv_add_tmod a b, (tmod_range a hb).1, (tmod_range a hb).2,
    fun h => Int.tmod_nonneg b h, fun h => ?_⟩
  have h1 := Int.tmod_nonneg b (show 0 ≤ -a by omega)
  have h2 := tmod_neg_dividend a b
  omega

/-- Closed form of `jd_start_of_celtic_year` on a year written in anchored form. -/
theorem jd_start_eq (f l : ℤ) (hl0 : 0 ≤ l) (hl5 : l < 5) :
    jd_start_of_celtic_year (ANCHOR_YEAR + f * CYCLE_YEARS + l) =
      ANCHOR_JD + f * CYCLE_DAYS + cycle_prefix_days l.toNat := by
  unfold jd_start_of_celtic_year
  dsimp only
  have harg : ANCHOR_YEAR + f * CYCLE_YEARS + l - ANCHOR_YEAR = 5 * f + l := by
    unfold ANCHOR_YEAR CYCLE_YEARS
    ring
  rw [harg]
  have hs := tmod_spec (5 * f + l) (show (0:ℤ) < 5 by norm_num)
  have e1 : (if (5*f+l).tmod CYCLE_YEARS < 0 then (5*f+l).tdiv CYCLE_YEARS - 1
      else (5*f+l).tdiv CYCLE_YEARS) = f := by
    unfold CYCLE_YEARS
    split_ifs <;> omega
  have e2 : (if (5*f+l).tmod CYCLE_YEARS < 0 then (5*f+l).tmod CYCLE_YEARS + CYCLE_YEARS
      else (5*f+l).tmod CYCLE_YEARS) = l := by
    unfold CYCLE_YEARS
    split_ifs <;> omega
  rw [e1, e2]

/-- The C idiom `phase = fmod(x, 1.0); if (phase < 0) phase += 1.0` computes
the fractional part. -/
theorem phase_norm (x : ℚ) :
    (if cfmod x 1 < 0 then cfmod x 1 + 1 else cfmod x 1) = Int.fract x := by
  have hE : cfmod x 1 = x - (ctrunc x : ℚ) := by
    unfold cfmod
    rw [div_one, one_mul]
  unfold ctrunc at hE
  rcases le_or_lt 0 x with h | h
  · rw [if_neg (not_lt.mpr h)] at hE
    rw [ratfloor_eq] at hE
    have hfr : cfmod x 1 = Int.fract x := by rw [hE, Int.self_sub_floor]
    rw [hfr, if_neg (not_lt.mpr (Int.fract_nonneg x))]
  · rw [if_pos h, ratfloor_eq, Int.floor_neg] at hE
    push_cast at hE
    have hfl := Int.floor_le x
    have hcl := Int.le_ceil x
    have hcf := Int.ceil_le_floor_add_one x
    have hlc := Int.floor_le_ceil x
    have hfr : (Int.fract x : ℚ) = x - ⌊x⌋ := (Int.self_sub_floor x).symm
    rcases eq_or_lt_of_le hlc with he | hlt
    · have hxz : x = (⌊x⌋ : ℚ) := by
        have hb : ((⌊x⌋ : ℤ) : ℚ) ≤ x ∧ x ≤ ((⌈x⌉ : ℤ) : ℚ) := ⟨hfl, hcl⟩
        have hcast : ((⌈x⌉ : ℤ) : ℚ) = ((⌊x⌋ : ℤ) : ℚ) := by exact_mod_cast he.symm
        linarith [hb.1, hb.2, hcast.le]
      have hE0 : cfmod x 1 = 0 := by
        rw [hE, hxz]
        have hcc : (⌈(⌊x⌋ : ℚ)⌉ : ℚ) = (⌊x⌋ : ℚ) := by
          rw [Int.ceil_intCast]
        linarith [hcc]
      rw [hE0]
      norm_num
      rw [Int.fract]
      rw [hxz]
      rw [Int.floor_intCast]
      ring
    · have hceq : ⌈x⌉ = ⌊x⌋ + 1 := by omega
      have hE1 : cfmod x 1 = Int.fract x - 1 := by
        rw [hE, hceq]
        push_cast
        rw [hfr]
        ring
      have hneg : cfmod x 1 < 0 := by
        rw [hE1]
        have := Int.fract_lt_one x
        linarith
      rw [if_pos hneg, hE1]
      ring

/-- `moon_phase` returns the Full bucket whenever the synodic fraction lies in
the Full quarter. -/
theorem moon_phase_eq_two {j : ℤ}
    (h1 : (1:ℚ)/2 ≤ Int.fract (((j : ℚ) - 2451550.1) / 29.53058867))
    (h2 : Int.fract (((j : ℚ) - 2451550.1) / 29.53058867) < 5/8) :
    moon_phase j = 2 := by
  unfold moon_phase
  dsimp only
  rw [phase_norm]
  rw [if_neg (by rw [show (0.125 : ℚ) = 1/8 by norm_num]; push_neg; linarith)]
  rw [if_neg (by rw [show (0.375 : ℚ) = 3/8 by norm_num]; push_neg; linarith)]
  rw [if_pos (by rw [show (0.625 : ℚ) = 5/8 by norm_num]; linarith)]

/-- Algebraic identity for the waning-half offset in `find_full_moon_before`. -/
theorem offset_decomp1 (X P F s : ℚ) (hs : s ≠ 0) :
    X - ((P - 0.5) * s - F) / s = (X - P) + (1/2 + F / s) := by
  field_simp
  ring

/-- Algebraic identity for the waxing-half offset in `find_full_moon_before`. -/
theorem offset_decomp2 (X P F s : ℚ) (hs : s ≠ 0) :
    X - ((P + 0.5) * s - F) / s = (X - P - 1) + (1/2 + F / s) := by
  field_simp
  ring

/-! ## Claim theorems: fixed-cycle calendar and Julian-day conversion -/

/-- Claim C3: `jd_from_ymd(2000, 1, 1)` equals 2451545, the canonical J2000.0
Julian Day Number used as the epoch throughout the astronomical formulas. -/
theorem jd_from_ymd_J2000 : jd_from_ymd 2000 1 1 = 2451545 := by
  rw [jd_from_ymd_eq]
  decide

/-- Claim C1, counterexample: at the anchor JDN 2460981 (Nov 1, 2025, the start
of Celtic year 5127), `current_year_length` returns 384 — a value of the fixed
354/384-day Coligny cycle, and not 365 or 366 as the claim asserts. -/
theorem current_year_length_counterexample :
    current_year_length 2460981 = 384 ∧
      ¬(current_year_length 2460981 = 365 ∨ current_year_length 2460981 = 366) := by
  decide

/-- Claim C1, amended: for every JDN, `current_year_length` returns the length
of the enclosing year of the fixed 5-year Coligny cycle
(`year_days_in_cycle[year_in_cycle_from_jd(jd)]`), which is always 354 or 384 —
it performs no astronomical Samhain-to-Samhain computation. -/
theorem current_year_length_fixed_cycle (jd : ℤ) :
    current_year_length jd = 354 ∨ current_year_length jd = 384 := by
  unfold current_year_length year_in_cycle_from_jd
  dsimp only
  split_ifs <;> norm_num [year_days_in_cycle]

/-- Claim C8: for every JDN, `lunar_month_length` returns 29 or 30, and it
returns 30 exactly when the gap from the current full moon to the next one
found by the +30-day search (retried at +35 days if the search did not
advance) is at least 30 days. -/
theorem lunar_month_length_29_or_30 (jd : ℤ) :
    (lunar_month_length jd = 29 ∨ lunar_month_length jd = 30) ∧
      (lunar_month_length jd = 30 ↔
        30 ≤ (if find_full_moon_before (jd + 30) ≤ find_full_moon_before jd
              then find_full_moon_before (jd + 35)
              else find_full_moon_before (jd + 30)) - find_full_moon_before jd) := by
  unfold lunar_month_length
  dsimp only
  split_ifs <;> simp_all

/-- Claim C10: the fixed-cycle calendar functions are mutually consistent: the
start of the Celtic year containing `jd` is at most `jd`, and `day_of_year`
equals the offset from that start plus one. -/
theorem fixed_cycle_consistency (jd : ℤ) :
    jd_start_of_celtic_year (celtic_year_from_jd jd) ≤ jd ∧
      day_of_year jd = jd - jd_start_of_celtic_year (celtic_year_from_jd jd) + 1 := by
  unfold celtic_year_from_jd
  dsimp only
  rw [jd_start_eq]
  · unfold day_of_year
    dsimp only
    have ha0 : cycle_year_start 0 = 0 := by decide
    have ha1 : cycle_year_start 1 = 384 := by decide
    have ha2 : cycle_year_start 2 = 738 := by decide
    have ha3 : cycle_year_start 3 = 1122 := by decide
    have ha4 : cycle_year_start 4 = 1476 := by decide
    have hy0 : year_days_in_cycle 0 = 384 := by decide
    have hy1 : year_days_in_cycle 1 = 354 := by decide
    have hy2 : year_days_in_cycle 2 = 384 := by decide
    have hy3 : year_days_in_cycle 3 = 354 := by decide
    have hy4 : year_days_in_cycle 4 = 354 := by decide
    simp only [ha0, ha1, ha2, ha3, ha4, hy0, hy1, hy2, hy3, hy4,
      ANCHOR_JD, ANCHOR_YEAR, CYCLE_DAYS, CYCLE_YEARS]
    have hs := tmod_spec (jd - 2460981) (show (0:ℤ) < 1830 by norm_num)
    have hc0 : cycle_prefix_days ((0:ℤ)).toNat = 0 := by decide
    have hc1 : cycle_prefix_days ((1:ℤ)).toNat = 384 := by decide
    have hc2 : cycle_prefix_days ((2:ℤ)).toNat = 738 := by decide
    have hc3 : cycle_prefix_days ((3:ℤ)).toNat = 1122 := by decide
    have hc4 : cycle_prefix_days ((4:ℤ)).toNat = 1476 := by decide
    split_ifs <;> simp only [hc0, hc1, hc2, hc3, hc4] <;> omega
  · split_ifs <;> norm_num
  · split_ifs <;> norm_num

/-- Claim C4: for every JDN, the moon phase at the JDN returned by
`find_full_moon_before` is bucket 2 (Full): the closed-form offset lands inside
the Full quarter of the synodic-fraction bucketing. -/
theorem full_moon_phase_is_full (jd : ℤ) : moon_phase (find_full_moon_before jd) = 2 := by
  unfold find_full_moon_before
  dsimp only
  rw [phase_norm]
  have hp0 := Int.fract_nonneg (((jd:ℚ) - 2451550.1) / 29.53058867)
  have hp1 := Int.fract_lt_one (((jd:ℚ) - 2451550.1) / 29.53058867)
  have hfa := Int.floor_add_fract (((jd:ℚ) - 2451550.1) / 29.53058867)
  rcases le_or_lt (0.5 : ℚ) (Int.fract (((jd:ℚ) - 2451550.1) / 29.53058867)) with h | h
  · rw [if_pos h]
    set P : ℚ := Int.fract (((jd:ℚ) - 2451550.1) / 29.53058867) with hP
    have hf0 : 0 ≤ (P - 0.5) * 29.53058867 := by
      apply mul_nonneg
      · norm_num at h ⊢
        linarith
      · norm_num
    rw [ctrunc_of_nonneg hf0]
    have hq0 := Int.fract_nonneg ((P - 0.5) * 29.53058867)
    have hq1 := Int.fract_lt_one ((P - 0.5) * 29.53058867)
    have hqa := Int.floor_add_fract ((P - 0.5) * 29.53058867)
    have hdiv : Int.fract ((P - 0.5) * 29.53058867) / 29.53058867 < 1/8 := by
      rw [div_lt_iff₀ (by norm_num)]
      linarith
    have hdiv0 : 0 ≤ Int.fract ((P - 0.5) * 29.53058867) / 29.53058867 := by positivity
    have e1 : (((jd - ⌊(P - 0.5) * 29.53058867⌋ : ℤ) : ℚ) - 2451550.1) / 29.53058867
        = ((jd:ℚ) - 2451550.1) / 29.53058867 - (⌊(P - 0.5) * 29.53058867⌋ : ℚ) / 29.53058867 := by
      push_cast
      ring
    have e2 : (⌊(P - 0.5) * 29.53058867⌋ : ℚ)
        = (P - 0.5) * 29.53058867 - Int.fract ((P - 0.5) * 29.53058867) := by linarith
    have e3 : ((jd:ℚ) - 2451550.1) / 29.53058867 - (⌊(P - 0.5) * 29.53058867⌋ : ℚ) / 29.53058867
        = ((⌊((jd:ℚ) - 2451550.1) / 29.53058867⌋ : ℤ) : ℚ)
          + (1/2 + Int.fract ((P - 0.5) * 29.53058867) / 29.53058867) := by
      rw [e2, offset_decomp1 _ _ _ _ (by norm_num)]
      linarith
    apply moon_phase_eq_two <;>
      rw [e1, e3, Int.fract_int_add, Int.fract_eq_self.mpr ⟨by linarith, by linarith⟩] <;>
      linarith
  · rw [if_neg (not_le.mpr h)]
    set P : ℚ := Int.fract (((jd:ℚ) - 2451550.1) / 29.53058867) with hP
    have hf0 : 0 ≤ (P + 0.5) * 29.53058867 := by
      apply mul_nonneg
      · norm_num at h ⊢
        linarith
      · norm_num
    rw [ctrunc_of_nonneg hf0]
    have hq0 := Int.fract_nonneg ((P + 0.5) * 29.53058867)
    have hq1 := Int.fract_lt_one ((P + 0.5) * 29.53058867)
    have hqa := Int.floor_add_fract ((P + 0.5) * 29.53058867)
    have hdiv : Int.fract ((P + 0.5) * 29.53058867) / 29.53058867 < 1/8 := by
      rw [div_lt_iff₀ (by norm_num)]
      linarith
    have hdiv0 : 0 ≤ Int.fract ((P + 0.5) * 29.53058867) / 29.53058867 := by positivity
    have e1 : (((jd - ⌊(P + 0.5) * 29.53058867⌋ : ℤ) : ℚ) - 2451550.1) / 29.53058867
        = ((jd:ℚ) - 2451550.1) / 29.53058867 - (⌊(P + 0.5) * 29.53058867⌋ : ℚ) / 29.53058867 := by
      push_cast
      ring
    have e2 : (⌊(P + 0.5) * 29.53058867⌋ : ℚ)
        = (P + 0.5) * 29.53058867 - Int.fract ((P + 0.5) * 29.53058867) := by linarith
    have e3 : ((jd:ℚ) - 2451550.1) / 29.53058867 - (⌊(P + 0.5) * 29.53058867⌋ : ℚ) / 29.53058867
        = ((⌊((jd:ℚ) - 2451550.1) / 29.53058867⌋ - 1 : ℤ) : ℚ)
          + (1/2 + Int.fract ((P + 0.5) * 29.53058867) / 29.53058867) := by
      rw [e2, offset_decomp2 _ _ _ _ (by norm_num)]
      push_cast
      linarith
    apply moon_phase_eq_two <;>
      rw [e1, e3, Int.fract_int_add, Int.fract_eq_self.mpr ⟨by linarith, by linarith⟩] <;>
      linarith

/-! ## Real-valued helper lemmas -/

/-- C `fmod` stays within `(-y, y)` for a positive modulus (`ℝ` model). -/
theorem cfmodR_bounds (x : ℝ) {y : ℝ} (hy : 0 < y) : -y < cfmodR x y ∧ cfmodR x y < y := by
  unfold cfmodR ctruncR
  have hxy : x = x / y * y := by field_simp
  rcases lt_or_le (x / y) 0 with h | h
  · rw [if_pos h]
    push_cast
    have h1 := Int.fract_nonneg (-(x/y))
    have h2 := Int.fract_lt_one (-(x/y))
    have hfr : (⌊-(x/y)⌋ : ℝ) = -(x/y) - Int.fract (-(x/y)) := by
      linarith [Int.floor_add_fract (-(x/y))]
    rw [hfr]
    constructor <;> nlinarith
  · rw [if_neg (not_lt.mpr h)]
    have h1 := Int.fract_nonneg (x/y)
    have h2 := Int.fract_lt_one (x/y)
    have hfr : (⌊x/y⌋ : ℝ) = x/y - Int.fract (x/y) := by
      linarith [Int.floor_add_fract (x/y)]
    rw [hfr]
    constructor <;> nlinarith

/-- The C normalization idiom `fmod(v,360); if (v<0) v+=360` lands in `[0,360)`. -/
theorem norm360_bounds (v : ℝ) :
    0 ≤ (if cfmodR v 360 < 0 then cfmodR v 360 + 360 else cfmodR v 360) ∧
      (if cfmodR v 360 < 0 then cfmodR v 360 + 360 else cfmodR v 360) < 360 := by
  have h := cfmodR_bounds v (show (0:ℝ) < 360 by norm_num)
  split_ifs with hc
  · constructor <;> linarith
  · constructor <;> linarith

/-- The Sun's apparent longitude is normalized into `[0, 360)`. -/
theorem sun_longitude_bounds (jd : ℤ) : 0 ≤ sun_longitude jd ∧ sun_longitude jd < 360 := by
  unfold sun_longitude
  dsimp only
  exact norm360_bounds _

/-- Truncation toward zero is bounded by any integer bound on the magnitude. -/
theorem ctruncR_le_abs (x : ℝ) {B : ℤ} (h1 : -(B:ℝ) ≤ x) (h2 : x ≤ (B:ℝ)) :
    -B ≤ ctruncR x ∧ ctruncR x ≤ B := by
  have hB : (0:ℝ) ≤ (B:ℝ) := by
    rcases le_or_lt 0 x with h | h
    · linarith
    · linarith
  unfold ctruncR
  split_ifs with hx
  · have h3 : (⌊-x⌋ : ℝ) ≤ -x := Int.floor_le _
    have h4 : (0:ℤ) ≤ ⌊-x⌋ := Int.floor_nonneg.mpr (by linarith)
    have h5 : ⌊-x⌋ ≤ B := by
      have : (⌊-x⌋ : ℝ) ≤ (B:ℝ) := by linarith
      exact_mod_cast this
    constructor <;> omega
  · have h3 : (⌊x⌋ : ℝ) ≤ x := Int.floor_le _
    have h4 : (0:ℤ) ≤ ⌊x⌋ := Int.floor_nonneg.mpr (by linarith)
    have h5 : ⌊x⌋ ≤ B := by
      have : (⌊x⌋ : ℝ) ≤ (B:ℝ) := by linarith
      exact_mod_cast this
    constructor <;> omega

/-- The signed day offset to a target longitude in `[0, 360]` lies in `[-183, 183]`. -/
theorem days_to_solar_longitude_bounds (jd : ℤ) (target : ℝ)
    (ht0 : 0 ≤ target) (ht1 : target ≤ 360) :
    -183 ≤ days_to_solar_longitude jd target ∧ days_to_solar_longitude jd target ≤ 183 := by
  unfold days_to_solar_longitude
  dsimp only
  have hs := sun_longitude_bounds jd
  apply ctruncR_le_abs
  · rw [show -((183:ℤ):ℝ) = -183 by norm_num, le_div_iff₀ (show (0:ℝ) < 0.9856 by norm_num)]
    split_ifs <;> linarith
  · rw [show (((183:ℤ)):ℝ) = 183 by norm_num, div_le_iff₀ (show (0:ℝ) < 0.9856 by norm_num)]
    split_ifs <;> linarith

/-- The adjusted day offset lies in `[0, 365)`. -/
theorem eightfold_adjust_bounds {e : ℤ} (h1 : -183 ≤ e) (h2 : e ≤ 183) :
    0 ≤ eightfold_adjust e ∧ eightfold_adjust e < 365 := by
  unfold eightfold_adjust
  split_ifs <;> omega

/-- One step of the minimum-selection loop preserves the day-offset range. -/
theorem eightfold_min_step_bounds {p : ℤ × ℤ} {i f : ℤ}
    (hp : 0 ≤ p.2 ∧ p.2 < 365) (hf : 0 ≤ f ∧ f < 365) :
    0 ≤ (eightfold_min_step p i f).2 ∧ (eightfold_min_step p i f).2 < 365 := by
  unfold eightfold_min_step
  split_ifs <;> simp_all

/-- Claim C5: for every JDN, the `days_to_event` out-parameter computed by
`nearest_eightfold_event` lies in `[0, 365)`: each signed offset is reduced to
the shortest path, divided by 0.9856, and shifted by +365 when negative,
before the minimum is taken. -/
theorem nearest_eightfold_event_days_range (jd : ℤ) :
    0 ≤ (nearest_eightfold_event jd).2 ∧ (nearest_eightfold_event jd).2 < 365 := by
  unfold nearest_eightfold_event
  dsimp only
  unfold days_to_yule days_to_true_imbolc days_to_ostara days_to_true_beltane
    days_to_litha days_to_true_lughnasadh days_to_mabon days_to_true_samhain
  have b0 := days_to_solar_longitude_bounds jd 270.0 (by norm_num) (by norm_num)
  have b1 := days_to_solar_longitude_bounds jd 315.0 (by norm_num) (by norm_num)
  have b2 := days_to_solar_longitude_bounds jd 0.0 (by norm_num) (by norm_num)
  have b3 := days_to_solar_longitude_bounds jd 45.0 (by norm_num) (by norm_num)
  have b4 := days_to_solar_longitude_bounds jd 90.0 (by norm_num) (by norm_num)
  have b5 := days_to_solar_longitude_bounds jd 135.0 (by norm_num) (by norm_num)
  have b6 := days_to_solar_longitude_bounds jd 180.0 (by norm_num) (by norm_num)
  have b7 := days_to_solar_longitude_bounds jd 225.0 (by norm_num) (by norm_num)
  exact eightfold_min_step_bounds
    (eightfold_min_step_bounds (eightfold_min_step_bounds (eightfold_min_step_bounds
      (eightfold_min_step_bounds (eightfold_min_step_bounds (eightfold_min_step_bounds
        (eightfold_adjust_bounds b0.1 b0.2) (eightfold_adjust_bounds b1.1 b1.2))
        (eightfold_adjust_bounds b2.1 b2.2)) (eightfold_adjust_bounds b3.1 b3.2))
      (eightfold_adjust_bounds b4.1 b4.2)) (eightfold_adjust_bounds b5.1 b5.2))
      (eightfold_adjust_bounds b6.1 b6.2)) (eightfold_adjust_bounds b7.1 b7.2)

/-- The unclamped sunset expression `12 + arccos(c)·180/PI/15` lies in `[12, 24]`. -/
theorem sunset_tail_bounds (c : ℝ) :
    12 ≤ 12 + Real.arccos c * 180 / PI / 15 ∧ 12 + Real.arccos c * 180 / PI / 15 ≤ 24 := by
  unfold PI
  have ha0 := Real.arccos_nonneg c
  have ha1 := Real.arccos_le_pi c
  have hpi := Real.pi_pos
  constructor
  · have h : 0 ≤ Real.arccos c * 180 / Real.pi / 15 := by positivity
    linarith
  · have h : Real.arccos c * 180 / Real.pi / 15 ≤ 12 := by
      rw [div_le_iff₀ (show (0:ℝ) < 15 by norm_num), div_le_iff₀ hpi]
      nlinarith
    linarith

/-- Claim C9: for every JDN and latitude strictly between -90 and 90 degrees,
`calculate_sunset` returns a value in `[12.0, 24.0]`: the clamp branches return
exactly 12.0 and 24.0, and the unclamped branch adds an hour angle in `[0, 12]`
to noon. -/
theorem calculate_sunset_range (jd : ℤ) (latitude : ℝ)
    (h1 : -90 < latitude) (h2 : latitude < 90) :
    12 ≤ calculate_sunset jd latitude ∧ calculate_sunset jd latitude ≤ 24 := by
  unfold calculate_sunset
  dsimp only
  split_ifs <;> first | exact sunset_tail_bounds _ | norm_num

/-- Witness for C9 at the J2000.0 epoch and the latitude of Coligny. -/
theorem calculate_sunset_range_witness :
    12 ≤ calculate_sunset 2451545 46.38 ∧ calculate_sunset 2451545 46.38 ≤ 24 :=
  calculate_sunset_range 2451545 46.38 (by norm_num) (by norm_num)

/-- The lunation-counting loop stays within `[month_count, 14]` when started at
a count of at most 13. -/
theorem lunation_loop_bounds : ∀ (fuel : ℕ) (jdc jck mc : ℤ), 0 ≤ mc → mc ≤ 13 →
    0 ≤ lunation_loop jdc jck mc fuel ∧ lunation_loop jdc jck mc fuel ≤ 14 := by
  intro fuel
  induction fuel with
  | zero => intro jdc jck mc h0 h13; unfold lunation_loop; omega
  | succ n ih =>
    intro jdc jck mc h0 h13
    unfold lunation_loop
    dsimp only
    split_ifs with hlt hbrk
    · omega
    · exact ih jdc _ (mc + 1) (by omega) (by omega)
    · omega

/-- Claim C6: for every JDN, `lunar_celtic_month_index` lies in `{-1, 0, ..., 11}`,
and it returns -1 exactly when the lunation count from the Samonios start
(whose counting loop is hard-capped) exceeds 11. -/
theorem lunar_celtic_month_index_range (jd : ℤ) :
    (lunar_celtic_month_index jd = -1 ∨
      (0 ≤ lunar_celtic_month_index jd ∧ lunar_celtic_month_index jd ≤ 11)) ∧
      (lunar_celtic_month_index jd = -1 ↔ 11 < lunation_count jd) := by
  have hb : 0 ≤ lunation_count jd ∧ lunation_count jd ≤ 14 := by
    unfold lunation_count
    dsimp only
    exact lunation_loop_bounds 14 _ _ 0 (by norm_num) (by norm_num)
  unfold lunar_celtic_month_index
  split_ifs with h
  · exact ⟨Or.inl rfl, by constructor <;> intro <;> omega⟩
  · refine ⟨Or.inr ⟨hb.1, by omega⟩, ?_⟩
    constructor <;> intro hh <;> omega

/-! ## C7: Gregorian round-trip helpers -/

/-- The inverse Gregorian extraction in pure integer arithmetic. -/
theorem greg_from_jd_eq (jd : ℤ) :
    greg_from_jd jd =
      (let z : ℤ := jd + 1
       let alpha : ℤ := (4 * z - 7468865).tdiv 146097
       let a : ℤ := z + 1 + alpha - alpha.tdiv 4
       let b : ℤ := a + 1524
       let c : ℤ := (20 * b - 2442).tdiv 7305
       let dd : ℤ := (1461 * c).tdiv 4
       let e : ℤ := (10000 * (b - dd)).tdiv 306001
       let greg_month : ℤ := if e < 14 then e - 1 else e - 13
       let greg_year : ℤ := if 2 < greg_month then c - 4716 else c - 4715
       (greg_year, greg_month)) := by
  have h1 : ∀ w : ℤ, ctrunc (((w : ℚ) - 1867216.25) / 36524.25) = (4 * w - 7468865).tdiv 146097 := by
    intro w
    have e1 : ((w : ℚ) - 1867216.25) / 36524.25 = ((4 * w - 7468865 : ℤ) : ℚ) / ((146097 : ℤ) : ℚ) := by
      push_cast
      rw [div_eq_div_iff (by norm_num) (by norm_num)]
      ring
    rw [e1, ctrunc_intCast_div _ (by norm_num)]
  have h2 : ∀ w : ℤ, ctrunc (((w : ℚ) - 122.1) / 365.25) = (20 * w - 2442).tdiv 7305 := by
    intro w
    have e1 : ((w : ℚ) - 122.1) / 365.25 = ((20 * w - 2442 : ℤ) : ℚ) / ((7305 : ℤ) : ℚ) := by
      push_cast
      rw [div_eq_div_iff (by norm_num) (by norm_num)]
      ring
    rw [e1, ctrunc_intCast_div _ (by norm_num)]
  have h3 : ∀ w v : ℤ, ctrunc (((w : ℚ) - (v : ℚ)) / 30.6001) = (10000 * (w - v)).tdiv 306001 := by
    intro w v
    have e1 : ((w : ℚ) - (v : ℚ)) / 30.6001 = ((10000 * (w - v) : ℤ) : ℚ) / ((306001 : ℤ) : ℚ) := by
      push_cast
      rw [div_eq_div_iff (by norm_num) (by norm_num)]
      ring
    rw [e1, ctrunc_intCast_div _ (by norm_num)]
  unfold greg_from_jd
  simp only [h1, h2, h3, ctrunc_36525]

/-- Rewriting layer: `Int.tdiv` by the specific positive divisors appearing in
the conversion chain, in `omega`-friendly form. -/
theorem tdiv_by_4 (a : ℤ) : a.tdiv 4 = if 0 ≤ a then a / 4 else -(-a / 4) :=
  tdiv_eq_ite a (by norm_num)

theorem tdiv_by_100 (a : ℤ) : a.tdiv 100 = if 0 ≤ a then a / 100 else -(-a / 100) :=
  tdiv_eq_ite a (by norm_num)

theorem tdiv_by_146097 (a : ℤ) : a.tdiv 146097 = if 0 ≤ a then a / 146097 else -(-a / 146097) :=
  tdiv_eq_ite a (by norm_num)

theorem tdiv_by_7305 (a : ℤ) : a.tdiv 7305 = if 0 ≤ a then a / 7305 else -(-a / 7305) :=
  tdiv_eq_ite a (by norm_num)

theorem tdiv_by_306001 (a : ℤ) : a.tdiv 306001 = if 0 ≤ a then a / 306001 else -(-a / 306001) :=
  tdiv_eq_ite a (by norm_num)

/-- Step-form statement of the inverse extraction: with each intermediate of
the chain named by a hypothesis, the extracted year is the final conditional. -/
theorem greg_from_jd_steps (jd z alpha a b c dd e : ℤ)
    (hz : z = jd + 1)
    (halpha : alpha = (4 * z - 7468865).tdiv 146097)
    (ha : a = z + 1 + alpha - alpha.tdiv 4)
    (hb : b = a + 1524)
    (hc : c = (20 * b - 2442).tdiv 7305)
    (hdd : dd = (1461 * c).tdiv 4)
    (he : e = (10000 * (b - dd)).tdiv 306001) :
    (greg_from_jd jd).1 =
      if 2 < (if e < 14 then e - 1 else e - 13) then c - 4716 else c - 4715 := by
  rw [greg_from_jd_eq]
  dsimp only
  rw [← hz, ← halpha, ← ha, ← hb, ← hc, ← hdd, ← he]

set_option maxHeartbeats 4000000 in
/-- Inverse-year correctness for a day offset inside the March..December part
of the shifted year (offsets arising from months 3..12): the Gregorian year is
recovered unchanged. -/
theorem greg_year_lo (Yp o : ℤ) (hG : 0 ≤ Yp + 4716) (ho1 : 123 ≤ o) (ho2 : o ≤ 425) :
    (greg_from_jd ((1461 * (Yp + 4716)).tdiv 4 + o
        + (2 - Yp.tdiv 100 + (Yp.tdiv 100).tdiv 4) - 1524)).1 = Yp := by
  obtain ⟨J, hJ⟩ : ∃ t : ℤ, t = (1461 * (Yp + 4716)).tdiv 4 + o
      + (2 - Yp.tdiv 100 + (Yp.tdiv 100).tdiv 4) - 1524 := ⟨_, rfl⟩
  rw [← hJ]
  obtain ⟨alpha, halpha⟩ : ∃ t : ℤ, t = (4 * (J + 1) - 7468865).tdiv 146097 := ⟨_, rfl⟩
  obtain ⟨a, ha⟩ : ∃ t : ℤ, t = J + 1 + 1 + alpha - alpha.tdiv 4 := ⟨_, rfl⟩
  obtain ⟨b, hb⟩ : ∃ t : ℤ, t = a + 1524 := ⟨_, rfl⟩
  obtain ⟨c, hc⟩ : ∃ t : ℤ, t = (20 * b - 2442).tdiv 7305 := ⟨_, rfl⟩
  obtain ⟨dd, hdd⟩ : ∃ t : ℤ, t = (1461 * c).tdiv 4 := ⟨_, rfl⟩
  obtain ⟨e, he⟩ : ∃ t : ℤ, t = (10000 * (b - dd)).tdiv 306001 := ⟨_, rfl⟩
  rw [greg_from_jd_steps J (J + 1) alpha a b c dd e rfl halpha ha hb hc hdd he]
  obtain ⟨A0, hA0⟩ : ∃ t : ℤ, t = Yp.tdiv 100 := ⟨_, rfl⟩
  rw [← hA0] at hJ
  obtain ⟨A4, hA4⟩ : ∃ t : ℤ, t = A0.tdiv 4 := ⟨_, rfl⟩
  rw [← hA4] at hJ
  obtain ⟨Q0, hQ0⟩ : ∃ t : ℤ, t = (1461 * (Yp + 4716)).tdiv 4 := ⟨_, rfl⟩
  rw [← hQ0] at hJ
  rw [tdiv_by_100] at hA0
  rw [tdiv_by_4] at hA4
  rw [tdiv_by_4, if_pos (show (0:ℤ) ≤ 1461 * (Yp + 4716) by omega)] at hQ0
  rw [tdiv_by_146097] at halpha
  rw [tdiv_by_4] at ha
  rw [tdiv_by_7305] at hc
  rw [tdiv_by_4] at hdd
  rw [tdiv_by_306001] at he
  have haux : alpha = A0 - 4 ∨ alpha = A0 - 3 ∨ alpha = A0 - 2 := by
    clear ha hb hc hdd he
    split_ifs at hA0 hA4 halpha <;> omega
  split_ifs at hA0 hA4 halpha ha hc hdd he ⊢ <;> omega

set_option maxHeartbeats 4000000 in
/-- Inverse-year correctness for a day offset in the January..February tail of
the shifted year (offsets arising from months 1 and 2): the extracted year is
one greater than the shifted year. -/
theorem greg_year_hi (Yp o : ℤ) (hG : 0 ≤ Yp + 4716) (ho1 : 429 ≤ o) (ho2 : o ≤ 487) :
    (greg_from_jd ((1461 * (Yp + 4716)).tdiv 4 + o
        + (2 - Yp.tdiv 100 + (Yp.tdiv 100).tdiv 4) - 1524)).1 = Yp + 1 := by
  obtain ⟨J, hJ⟩ : ∃ t : ℤ, t = (1461 * (Yp + 4716)).tdiv 4 + o
      + (2 - Yp.tdiv 100 + (Yp.tdiv 100).tdiv 4) - 1524 := ⟨_, rfl⟩
  rw [← hJ]
  obtain ⟨alpha, halpha⟩ : ∃ t : ℤ, t = (4 * (J + 1) - 7468865).tdiv 146097 := ⟨_, rfl⟩
  obtain ⟨a, ha⟩ : ∃ t : ℤ, t = J + 1 + 1 + alpha - alpha.tdiv 4 := ⟨_, rfl⟩
  obtain ⟨b, hb⟩ : ∃ t : ℤ, t = a + 1524 := ⟨_, rfl⟩
  obtain ⟨c, hc⟩ : ∃ t : ℤ, t = (20 * b - 2442).tdiv 7305 := ⟨_, rfl⟩
  obtain ⟨dd, hdd⟩ : ∃ t : ℤ, t = (1461 * c).tdiv 4 := ⟨_, rfl⟩
  obtain ⟨e, he⟩ : ∃ t : ℤ, t = (10000 * (b - dd)).tdiv 306001 := ⟨_, rfl⟩
  rw [greg_from_jd_steps J (J + 1) alpha a b c dd e rfl halpha ha hb hc hdd he]
  obtain ⟨A0, hA0⟩ : ∃ t : ℤ, t = Yp.tdiv 100 := ⟨_, rfl⟩
  rw [← hA0] at hJ
  obtain ⟨A4, hA4⟩ : ∃ t : ℤ, t = A0.tdiv 4 := ⟨_, rfl⟩
  rw [← hA4] at hJ
  obtain ⟨Q0, hQ0⟩ : ∃ t : ℤ, t = (1461 * (Yp + 4716)).tdiv 4 := ⟨_, rfl⟩
  rw [← hQ0] at hJ
  rw [tdiv_by_100] at hA0
  rw [tdiv_by_4] at hA4
  rw [tdiv_by_4, if_pos (show (0:ℤ) ≤ 1461 * (Yp + 4716) by omega)] at hQ0
  rw [tdiv_by_146097] at halpha
  rw [tdiv_by_4] at ha
  rw [tdiv_by_7305] at hc
  rw [tdiv_by_4] at hdd
  rw [tdiv_by_306001] at he
  have haux : alpha = A0 - 4 ∨ alpha = A0 - 3 ∨ alpha = A0 - 2 := by
    clear ha hb hc hdd he
    split_ifs at hA0 hA4 halpha <;> omega
  split_ifs at hA0 hA4 halpha ha hc hdd he ⊢ <;> omega

/-- Claim C7, counterexample: at (y, m, d) = (-4716, 1, 1) the forward
conversion followed by the inverse year extraction returns -4715, not -4716:
the round trip fails for years at or below -4716, where the century terms of
the truncating C divisions no longer agree with the floor-based derivation. -/
theorem gregorian_roundtrip_counterexample :
    (greg_from_jd (jd_from_ymd (-4716) 1 1)).1 ≠ -4716 := by
  rw [jd_from_ymd_eq, greg_from_jd_eq]
  decide

/-- Claim C7, amended: for every civil date (y, m, d) with y ≥ -4715,
m ∈ [1, 12] and d ∈ [1, 28], converting with `jd_from_ymd` and then applying
the inverse JDN-to-Gregorian extraction used inside `lunar_celtic_month_index`
recovers the same Gregorian year y. -/
theorem gregorian_year_roundtrip (y m d : ℤ) (hy : -4715 ≤ y)
    (hm1 : 1 ≤ m) (hm2 : m ≤ 12) (hd1 : 1 ≤ d) (hd2 : d ≤ 28) :
    (greg_from_jd (jd_from_ymd y m d)).1 = y := by
  rcases le_or_lt m 2 with hm | hm
  · have hT0 : (306001 * (m + 12 + 1)).tdiv 10000 = 306001 * (m + 12 + 1) / 10000 := by
      rw [tdiv_eq_ite _ (by norm_num), if_pos (by omega)]
    have harg : jd_from_ymd y m d = (1461 * (y - 1 + 4716)).tdiv 4
        + ((306001 * (m + 12 + 1)).tdiv 10000 + d)
        + (2 - (y - 1).tdiv 100 + ((y - 1).tdiv 100).tdiv 4) - 1524 := by
      rw [jd_from_ymd_eq, if_pos hm]
      ring
    rw [harg]
    rw [greg_year_hi (y - 1) ((306001 * (m + 12 + 1)).tdiv 10000 + d)
      (by omega) (by omega) (by omega)]
    omega
  · have hT0 : (306001 * (m + 1)).tdiv 10000 = 306001 * (m + 1) / 10000 := by
      rw [tdiv_eq_ite _ (by norm_num), if_pos (by omega)]
    have harg : jd_from_ymd y m d = (1461 * (y + 4716)).tdiv 4
        + ((306001 * (m + 1)).tdiv 10000 + d)
        + (2 - y.tdiv 100 + (y.tdiv 100).tdiv 4) - 1524 := by
      rw [jd_from_ymd_eq, if_neg (not_le.mpr hm)]
      ring
    rw [harg]
    exact greg_year_lo y ((306001 * (m + 1)).tdiv 10000 + d)
      (by omega) (by omega) (by omega)

/-- Witness for the amended C7 round trip at (2000, 5, 17). -/
theorem gregorian_year_roundtrip_witness :
    (-4715 : ℤ) ≤ 2000 ∧ (1 : ℤ) ≤ 5 ∧ (5 : ℤ) ≤ 12 ∧ (1 : ℤ) ≤ 17 ∧ (17 : ℤ) ≤ 28 ∧
      (greg_from_jd (jd_from_ymd 2000 5 17)).1 = 2000 :=
  ⟨by norm_num, by norm_num, by norm_num, by norm_num, by norm_num,
    gregorian_year_roundtrip 2000 5 17 (by norm_num) (by norm_num) (by norm_num)
      (by norm_num) (by norm_num)⟩
